import Mathlib

/-
  Verification of the lerobot-go teleoperation core.

  Shallow embedding conventions:
  * Go float64 arithmetic on calibration values is modelled exactly over ℚ
    (the quantities involved are small integers and small fractions).
  * Go's `int(x)` conversion on float64 truncates toward zero; `floatToInt`
    models it on ℚ.
  * Go maps `map[MotorName]float64` are modelled as `MotorName → Option ℚ`.
  * The capacity-one state channel is modelled as an `Option` slot
    (a single-slot overwrite mailbox), and the mutex-guarded `running`
    flag transitions as atomic operations on `Bool`.
-/

namespace LeRobot

/-- Go `int(x)` conversion applied to a float64: truncation toward zero. -/
def floatToInt (q : ℚ) : ℤ :=
  if 0 ≤ q then ⌊q⌋ else ⌈q⌉

/-- Motor names for the SO-101 arm (pkg/robot, `MotorName` constants). -/
inductive MotorName where
  | shoulderPan
  | shoulderLift
  | elbowFlex
  | wristFlex
  | wristRoll
  | gripper
deriving DecidableEq

/-- `AllMotors` from pkg/robot: canonical motor order, servo IDs 1-6. -/
def AllMotors : List MotorName :=
  [MotorName.shoulderPan, MotorName.shoulderLift, MotorName.elbowFlex,
   MotorName.wristFlex, MotorName.wristRoll, MotorName.gripper]

/-- `MotorCalibration` from pkg/robot/calibration.go. -/
structure MotorCalibration where
  id : ℤ
  driveMode : ℤ
  homingOffset : ℤ
  rangeMin : ℤ
  rangeMax : ℤ
deriving DecidableEq

/-- `MotorCalibration.Normalize` (calibration.go lines 43-50):
`rangeSize := float64(c.RangeMax - c.RangeMin); if rangeSize == 0 { return 0 };
return (float64(raw-c.RangeMin)/rangeSize)*200 - 100`. -/
def MotorCalibration.Normalize (c : MotorCalibration) (raw : ℤ) : ℚ :=
  if ((c.rangeMax - c.rangeMin : ℤ) : ℚ) = 0 then 0
  else ((raw - c.rangeMin : ℤ) : ℚ) / ((c.rangeMax - c.rangeMin : ℤ) : ℚ) * 200 - 100

/-- `MotorCalibration.Denormalize` (calibration.go lines 52-56):
`return int((norm+100)/200*rangeSize) + c.RangeMin`. -/
def MotorCalibration.Denormalize (c : MotorCalibration) (norm : ℚ) : ℤ :=
  floatToInt ((norm + 100) / 200 * ((c.rangeMax - c.rangeMin : ℤ) : ℚ)) + c.rangeMin

/-- The normalization formula as the spec states it (section 4.1), without
the zero-width guard: `((raw - rangeMin) / (rangeMax - rangeMin)) * 200 - 100`. -/
def NormalizeSpec (c : MotorCalibration) (raw : ℤ) : ℚ :=
  ((raw : ℚ) - (c.rangeMin : ℚ)) / ((c.rangeMax : ℚ) - (c.rangeMin : ℚ)) * 200 - 100

/-- The denormalization formula as the spec states it (section 4.1):
`((norm + 100) / 200) * (rangeMax - rangeMin) + rangeMin`, the scaled offset
truncated to an integer raw unit at the float-to-int boundary. -/
def DenormalizeSpec (c : MotorCalibration) (norm : ℚ) : ℤ :=
  floatToInt ((norm + 100) * ((c.rangeMax : ℚ) - (c.rangeMin : ℚ)) / 200) + c.rangeMin

/-- Truncation toward zero is the identity on integers. -/
theorem floatToInt_intCast (n : ℤ) : floatToInt (n : ℚ) = n := by
  unfold floatToInt
  split
  · simp
  · simp

/-- A calibration used in the repository's own tests (shoulder_pan). -/
def mcShoulder : MotorCalibration := ⟨1, 0, 978, 823, 3540⟩

/-- The calibration from the spec's worked example, rangeMin=1000, rangeMax=3000. -/
def mcWide : MotorCalibration := ⟨1, 0, 0, 1000, 3000⟩

/-- A degenerate calibration with a zero-width range. -/
def mcZero : MotorCalibration := ⟨1, 0, 0, 500, 500⟩

/-- `State` from pkg/teleop: positions map (nil when unset), timestamp, error. -/
structure TeleState where
  positions : Option (MotorName → Option ℚ)
  timestamp : ℕ
  error : Option String

/-- Log line label produced by `c.log("Read error: %v", err)` in `step`. -/
def readErrLabel : String := "Read error: "

/-- Log line label produced by `c.log("Write error: %v", err)` in `step`. -/
def writeErrLabel : String := "Write error: "

/-- One tick's interaction with the hardware: the outcome of
`leader.ReadPositions`, the tick's clock reading, and the outcome of
`follower.WritePositions` should a write be attempted. -/
structure StepInput where
  readResult : Except String (MotorName → Option ℚ)
  now : ℕ
  writeResult : Option String

/-- The externally visible effects of one `Controller.step` call: log lines
emitted, the positions written to the follower (none when no write was
attempted), and the `State` handed to `sendState`. -/
structure StepEffect where
  logs : List String
  written : Option (MotorName → Option ℚ)
  published : TeleState

/-- The mirroring transform inside `Controller.step` (teleop lines 233-244):
`followerPositions := positions`; when `c.mirror` is set, a fresh map is
built with `shoulder_pan` and `wrist_roll` sign-inverted and every other
entry copied. -/
def mirrorTransform (mirror : Bool) (positions : MotorName → Option ℚ) :
    MotorName → Option ℚ :=
  if mirror then
    fun name =>
      match positions name with
      | some pos =>
          if name = MotorName.shoulderPan ∨ name = MotorName.wristRoll then
            some (-pos)
          else some pos
      | none => none
  else positions

/-- `Controller.step` (teleop lines 224-256) as a pure function of the tick's
inputs. On a read error: log it, publish a `State` with only the error and
timestamp, no write. On success: write the (possibly mirrored) positions to
the follower, log a write failure if any, and publish the raw leader
positions with the timestamp. -/
def step (mirror : Bool) (input : StepInput) : StepEffect :=
  match input.readResult with
  | Except.error e =>
      { logs := [readErrLabel ++ e]
        written := none
        published := { positions := none, timestamp := input.now, error := some e } }
  | Except.ok positions =>
      let followerPositions := mirrorTransform mirror positions
      { logs :=
          match input.writeResult with
          | some e => [writeErrLabel ++ e]
          | none => []
        written := some followerPositions
        published := { positions := some positions, timestamp := input.now, error := none } }

/-- The control loop body (teleop lines 213-221): every ticker tick runs one
`step`; `step` never returns a termination signal, so every scheduled tick
is processed regardless of earlier failures. -/
def runLoop (mirror : Bool) (inputs : List StepInput) : List StepEffect :=
  inputs.map (step mirror)

/-- `Controller.sendState` (teleop lines 258-269) on the capacity-one state
channel, modelled as an option slot: a non-blocking send; if the slot is
occupied the stale snapshot is drained and the new one installed. Total as
a function: it never blocks. -/
def sendState (slot : Option TeleState) (s : TeleState) : Option TeleState :=
  match slot with
  | none => some s
  | some _ => some s

/-- An interaction with the state channel: the loop publishing a snapshot,
or an observer consuming whatever the slot holds. -/
inductive ChanOp where
  | publish : TeleState → ChanOp
  | consume : ChanOp

/-- Effect of one channel interaction on the slot. -/
def chanApply (slot : Option TeleState) : ChanOp → Option TeleState
  | ChanOp.publish s => sendState slot s
  | ChanOp.consume => none

/-- The slot after a sequence of publishes and consumes. -/
def runChan (slot : Option TeleState) (ops : List ChanOp) : Option TeleState :=
  ops.foldl chanApply slot

/-- Error message returned by `Controller.Start` on a second start. -/
def alreadyRunningMsg : String := "already running"

/-- Lifecycle events acting on the mutex-guarded `running` flag:
`start` is the check-and-set at the top of `Controller.Start`
(teleop lines 186-192); `stop` is the flag clearing done by both
`Controller.shutdown` (line 273) and `Controller.Close` (line 144). -/
inductive LifeEvent where
  | start
  | stop

/-- Atomic effect of a lifecycle event on the `running` flag, paired with
the error `Start` returns when the controller is already running. -/
def applyEvent (running : Bool) : LifeEvent → Bool × Option String
  | LifeEvent.start =>
      if running then (running, some alreadyRunningMsg) else (true, none)
  | LifeEvent.stop => (false, none)

/-- Per-motor state of the calibration recorder: `curPositions`,
`minPositions`, `maxPositions` entries in `calibrationModel`. -/
structure RecState where
  curPos : ℤ
  minPos : ℤ
  maxPos : ℤ
deriving DecidableEq

/-- Seeding in `calibrateArm` (part_000 lines 169-180): right after torque is
disabled, the first read seeds current, min and max with the same sample. -/
def seedRec (pos : ℤ) : RecState := ⟨pos, pos, pos⟩

/-- One sampling tick of `calibrationModel.Update` (part_000 lines 461-478)
for one motor: record the position and widen the observed bounds. -/
def recTick (st : RecState) (pos : ℤ) : RecState :=
  { curPos := pos
    minPos := if pos < st.minPos then pos else st.minPos
    maxPos := if pos > st.maxPos then pos else st.maxPos }

/-- The recorder state after the seed read and a sequence of sampled ticks. -/
def runRec (seed : ℤ) (samples : List ℤ) : RecState :=
  samples.foldl recTick (seedRec seed)

/-- Error wrapping in `NewController` for a failed leader construction. -/
def createLeaderErrLabel : String := "create leader arm: "

/-- Error wrapping in `NewController` for a failed follower construction. -/
def createFollowerErrLabel : String := "create follower arm: "

/-- Name of the bus handle the leader arm owns. -/
def leaderBusName : String := "leader"

/-- Name of the bus handle the follower arm owns. -/
def followerBusName : String := "follower"

/-- Outcome of `NewController`: whether a controller was returned, the error
otherwise, and which bus handles the call opened and closed. -/
structure CtorResult where
  controllerCreated : Bool
  err : Option String
  openedBuses : List String
  closedBuses : List String

/-- `NewController` (teleop lines 109-139) as a function of the two
`robot.NewArm` outcomes. A leader failure returns the wrapped error with
nothing opened; a follower failure calls `leader.Close()` — closing the
leader's bus (arm.go lines 40-43) — before returning the wrapped error;
on success both buses stay open, owned by the returned controller. -/
def newControllerModel (leaderRes followerRes : Except String Unit) : CtorResult :=
  match leaderRes with
  | Except.error e =>
      { controllerCreated := false
        err := some (createLeaderErrLabel ++ e)
        openedBuses := []
        closedBuses := [] }
  | Except.ok _ =>
      match followerRes with
      | Except.error e =>
          { controllerCreated := false
            err := some (createFollowerErrLabel ++ e)
            openedBuses := [leaderBusName]
            closedBuses := [leaderBusName] }
      | Except.ok _ =>
          { controllerCreated := true
            err := none
            openedBuses := [leaderBusName, followerBusName]
            closedBuses := [] }

/-- The leader positions from the spec's mirroring example. -/
def examplePositions : MotorName → Option ℚ
  | MotorName.shoulderPan => some 10
  | MotorName.shoulderLift => some 20
  | MotorName.wristRoll => some (-5)
  | MotorName.gripper => some 0
  | _ => none

/-- A sample error message for witnesses. -/
def sampleErr : String := "io failure"

/-- C1: for every motor calibration with rangeMin ≤ rangeMax and every
integer raw in [rangeMin, rangeMax], Denormalize(Normalize(raw)) differs
from raw by at most 1. (Over the exact-arithmetic model the round trip is
in fact exact, so the difference is 0 ≤ 1.) -/
theorem claim1_roundTrip (c : MotorCalibration) (raw : ℤ)
    (_hr : c.rangeMin ≤ c.rangeMax) (h1 : c.rangeMin ≤ raw) (h2 : raw ≤ c.rangeMax) :
    |c.Denormalize (c.Normalize raw) - raw| ≤ 1 := by
  have key : c.Denormalize (c.Normalize raw) = raw := by
    by_cases hz : c.rangeMax - c.rangeMin = 0
    · have hraw : raw = c.rangeMin := by omega
      have hN : c.Normalize raw = 0 := by
        simp [MotorCalibration.Normalize, hz]
      rw [hN]
      unfold MotorCalibration.Denormalize
      rw [hz]
      have h0 : floatToInt 0 = 0 := by
        unfold floatToInt
        simp
      norm_num [h0]
      omega
    · have hsz : ((c.rangeMax - c.rangeMin : ℤ) : ℚ) ≠ 0 := by exact_mod_cast hz
      have hN : c.Normalize raw =
          ((raw - c.rangeMin : ℤ) : ℚ) / ((c.rangeMax - c.rangeMin : ℤ) : ℚ) * 200 - 100 := by
        unfold MotorCalibration.Normalize
        rw [if_neg hsz]
      have harg : (c.Normalize raw + 100) / 200 * ((c.rangeMax - c.rangeMin : ℤ) : ℚ)
          = ((raw - c.rangeMin : ℤ) : ℚ) := by
        rw [hN]
        have h200 : (200 : ℚ) ≠ 0 := by norm_num
        have hcancel : ((raw - c.rangeMin : ℤ) : ℚ) / ((c.rangeMax - c.rangeMin : ℤ) : ℚ)
            * 200 - 100 + 100
            = ((raw - c.rangeMin : ℤ) : ℚ) / ((c.rangeMax - c.rangeMin : ℤ) : ℚ) * 200 := by
          ring
        rw [hcancel, mul_div_cancel_right₀ _ h200, div_mul_cancel₀ _ hsz]
      unfold MotorCalibration.Denormalize
      rw [harg, floatToInt_intCast]
      omega
  rw [key]
  simp

/-- Witness for C1 at the repository test calibration 823..3540, raw = 1000. -/
theorem claim1_witness :
    |mcShoulder.Denormalize (mcShoulder.Normalize 1000) - 1000| ≤ 1 :=
  claim1_roundTrip mcShoulder 1000 (by decide) (by decide) (by decide)

/-- C7: Normalize is the linear rescale
((raw - rangeMin) / (rangeMax - rangeMin)) * 200 - 100 whenever the range is
non-degenerate (no clamping outside the range), and is exactly 0 when
rangeMin = rangeMax, never a division fault (the function is total). -/
theorem claim7_normalizeFormula (c : MotorCalibration) (raw : ℤ) :
    (c.rangeMin = c.rangeMax → c.Normalize raw = 0) ∧
    (c.rangeMin ≠ c.rangeMax → c.Normalize raw = NormalizeSpec c raw) ∧
    (c.rangeMin ≠ c.rangeMax →
      c.Normalize c.rangeMin = -100 ∧ c.Normalize c.rangeMax = 100) := by
  have hform : c.rangeMin ≠ c.rangeMax → ∀ r : ℤ, c.Normalize r = NormalizeSpec c r := by
    intro h r
    have hsz : ((c.rangeMax - c.rangeMin : ℤ) : ℚ) ≠ 0 := by
      simp only [ne_eq, Int.cast_eq_zero, sub_eq_zero]
      exact fun hh => h hh.symm
    unfold MotorCalibration.Normalize NormalizeSpec
    rw [if_neg hsz]
    push_cast
    ring
  refine ⟨?_, fun h => hform h raw, ?_⟩
  · intro h
    simp [MotorCalibration.Normalize, h]
  · intro h
    have hsz : (c.rangeMax : ℚ) - (c.rangeMin : ℚ) ≠ 0 := by
      simp only [ne_eq, sub_eq_zero]
      exact fun hh => h (by exact_mod_cast hh.symm)
    constructor
    · rw [hform h c.rangeMin]
      unfold NormalizeSpec
      rw [sub_self, zero_div, zero_mul, zero_sub]
    · rw [hform h c.rangeMax]
      unfold NormalizeSpec
      rw [div_self hsz]
      norm_num

/-- Witness for C7: the degenerate calibration normalizes to 0, and the
spec's 1000..3000 example matches the linear formula. -/
theorem claim7_witness :
    mcZero.Normalize 1234 = 0 ∧ mcWide.Normalize 2000 = NormalizeSpec mcWide 2000 ∧
    mcWide.Normalize 1000 = -100 ∧ mcWide.Normalize 3000 = 100 :=
  ⟨(claim7_normalizeFormula mcZero 1234).1 rfl,
   (claim7_normalizeFormula mcWide 2000).2.1 (by decide),
   (claim7_normalizeFormula mcWide 2000).2.2 (by decide)⟩

/-- C8: Denormalize computes ((norm + 100) / 200) * (rangeMax - rangeMin)
+ rangeMin, with the scaled offset truncated to an integer raw unit at the
float-to-int conversion. -/
theorem claim8_denormalizeFormula (c : MotorCalibration) (norm : ℚ) :
    c.Denormalize norm = DenormalizeSpec c norm := by
  unfold MotorCalibration.Denormalize DenormalizeSpec
  congr 2
  push_cast
  ring

/-- C2: on a successful step the positions written to the follower are the
mirroring transform of the leader positions; with mirroring disabled the
transform is the identity; with mirroring enabled exactly shoulder_pan and
wrist_roll are sign-inverted and every other motor passes through
unchanged; the transform is a pure function of the current tick's input. -/
theorem claim2_mirror (mirror : Bool) (positions : MotorName → Option ℚ)
    (now : ℕ) (wres : Option String) :
    (step mirror ⟨Except.ok positions, now, wres⟩).written
      = some (mirrorTransform mirror positions) ∧
    mirrorTransform false positions = positions ∧
    mirrorTransform true positions MotorName.shoulderPan
      = Option.map (fun p => -p) (positions MotorName.shoulderPan) ∧
    mirrorTransform true positions MotorName.wristRoll
      = Option.map (fun p => -p) (positions MotorName.wristRoll) ∧
    (∀ n, n ≠ MotorName.shoulderPan → n ≠ MotorName.wristRoll →
      mirrorTransform true positions n = positions n) := by
  refine ⟨rfl, rfl, ?_, ?_, ?_⟩
  · cases hp : positions MotorName.shoulderPan <;> simp [mirrorTransform, hp]
  · cases hp : positions MotorName.wristRoll <;> simp [mirrorTransform, hp]
  · intro n hn1 hn2
    cases hp : positions n <;> simp [mirrorTransform, hp, hn1, hn2]

/-- Witness for C2 on the spec's example positions: the gripper is neither
designated motor, so it passes through unchanged. -/
theorem claim2_witness :
    mirrorTransform true examplePositions MotorName.gripper
      = examplePositions MotorName.gripper :=
  (claim2_mirror true examplePositions 0 none).2.2.2.2 MotorName.gripper
    (by decide) (by decide)

/-- C3: a step whose leader read fails logs the error, publishes a State
carrying only the error and the timestamp, writes nothing to the follower,
and does not terminate the loop: the loop maps `step` over every tick, so
after any prefix of ticks (failed or not) the next tick is still processed
from its own fresh input. -/
theorem claim3_readFailure (mirror : Bool) (e : String) (now : ℕ)
    (wres : Option String) (inputs : List StepInput) (input : StepInput) :
    (step mirror ⟨Except.error e, now, wres⟩).logs = [readErrLabel ++ e] ∧
    (step mirror ⟨Except.error e, now, wres⟩).written = none ∧
    (step mirror ⟨Except.error e, now, wres⟩).published
      = ⟨none, now, some e⟩ ∧
    runLoop mirror (inputs ++ [input]) = runLoop mirror inputs ++ [step mirror input] := by
  refine ⟨rfl, rfl, rfl, ?_⟩
  simp [runLoop]

/-- C9: the State published by a successful step holds exactly the leader
positions as read that tick and the timestamp, with no error; it is the
same for every value of the mirror flag, so the follower-transformed values
are never published. -/
theorem claim9_publishRaw (mirror : Bool) (positions : MotorName → Option ℚ)
    (now : ℕ) (wres : Option String) :
    (step mirror ⟨Except.ok positions, now, wres⟩).published
      = ⟨some positions, now, none⟩ := rfl

/-- C4: the state channel is a capacity-one slot; `sendState` is a total
function (publishing never blocks the loop), a publish into an occupied
slot evicts the stale snapshot and installs the new one, and after any
sequence of publishes and consumes ending in a publish the slot holds
exactly the state just published. -/
theorem claim4_stateChannel (init : Option TeleState) (stale s : TeleState)
    (ops : List ChanOp) :
    sendState (some stale) s = some s ∧
    sendState none s = some s ∧
    runChan init (ops ++ [ChanOp.publish s]) = some s := by
  have hsend : ∀ slot : Option TeleState, sendState slot s = some s := by
    intro slot
    cases slot <;> rfl
  refine ⟨rfl, rfl, ?_⟩
  simp [runChan, List.foldl_append, chanApply, hsend]

/-- C5 counterexample: the lifecycle is not terminal at Stopped. Starting
from Created (`running = false`), a Start then a stop (shutdown/Close)
leaves `running = false`, and a second Start succeeds with no
already-running error, re-entering Running — the code keeps a single Bool
and cannot distinguish Stopped from Created. -/
theorem claim5_counterexample :
    applyEvent (applyEvent (applyEvent false LifeEvent.start).1 LifeEvent.stop).1
      LifeEvent.start = (true, none) := rfl

/-- C5 amended: Start while running fails with the already-running error
and leaves the flag unchanged (so two consecutive Starts yield one running
loop and one error), and shutdown/Close clear the flag; but Stopped is not
terminal — with the flag cleared a later Start succeeds again. -/
theorem claim5_lifecycle (running : Bool) :
    (running = true → applyEvent running LifeEvent.start
      = (true, some alreadyRunningMsg)) ∧
    (running = false → applyEvent running LifeEvent.start = (true, none)) ∧
    applyEvent running LifeEvent.stop = (false, none) ∧
    applyEvent (applyEvent false LifeEvent.start).1 LifeEvent.start
      = (true, some alreadyRunningMsg) := by
  refine ⟨?_, ?_, rfl, rfl⟩ <;> intro h <;> subst h <;> rfl

/-- Witness for C5 amended at both flag values. -/
theorem claim5_witness :
    applyEvent true LifeEvent.start = (true, some alreadyRunningMsg) ∧
    applyEvent false LifeEvent.start = (true, none) :=
  ⟨(claim5_lifecycle true).1 rfl, (claim5_lifecycle false).2.1 rfl⟩

/-- Fold invariant of the recorder: from any state with
minPos ≤ curPos ≤ maxPos, folding ticks keeps minPos the running minimum,
maxPos the running maximum, and the bounds bracket the current sample. -/
theorem runRec_aux (samples : List ℤ) :
    ∀ st : RecState, st.minPos ≤ st.curPos → st.curPos ≤ st.maxPos →
      (samples.foldl recTick st).minPos = samples.foldl min st.minPos ∧
      (samples.foldl recTick st).maxPos = samples.foldl max st.maxPos ∧
      (samples.foldl recTick st).minPos ≤ (samples.foldl recTick st).curPos ∧
      (samples.foldl recTick st).curPos ≤ (samples.foldl recTick st).maxPos := by
  induction samples with
  | nil =>
      intro st h1 h2
      exact ⟨rfl, rfl, h1, h2⟩
  | cons p ps ih =>
      intro st _h1 _h2
      have hmin : (recTick st p).minPos = min st.minPos p := by
        simp only [recTick]
        split <;> omega
      have hmax : (recTick st p).maxPos = max st.maxPos p := by
        simp only [recTick]
        split <;> omega
      have hinv1 : (recTick st p).minPos ≤ (recTick st p).curPos := by
        rw [hmin]
        simp only [recTick]
        omega
      have hinv2 : (recTick st p).curPos ≤ (recTick st p).maxPos := by
        rw [hmax]
        simp only [recTick]
        omega
      obtain ⟨g1, g2, g3, g4⟩ := ih (recTick st p) hinv1 hinv2
      refine ⟨?_, ?_, g3, g4⟩
      · rw [List.foldl_cons, g1, hmin, List.foldl_cons]
      · rw [List.foldl_cons, g2, hmax, List.foldl_cons]

/-- C6: the recorder seeds current, min and max from the first sample read
right after torque is disabled, and after every tick min is the minimum and
max the maximum of all samples recorded so far, so min ≤ current ≤ max
holds from the first tick onward (for each motor independently). -/
theorem claim6_recorder (seed : ℤ) (samples : List ℤ) :
    runRec seed [] = seedRec seed ∧
    (runRec seed samples).minPos = samples.foldl min seed ∧
    (runRec seed samples).maxPos = samples.foldl max seed ∧
    (runRec seed samples).minPos ≤ (runRec seed samples).curPos ∧
    (runRec seed samples).curPos ≤ (runRec seed samples).maxPos := by
  obtain ⟨h1, h2, h3, h4⟩ :=
    runRec_aux samples (seedRec seed) (le_refl seed) (le_refl seed)
  exact ⟨rfl, h1, h2, h3, h4⟩

/-- C10: when the leader arm is constructed successfully but the follower
construction fails, `NewController` closes the leader's bus before
returning the wrapped error and creates no controller; on any failed
construction every bus handle the call opened has been closed. -/
theorem claim10_ctorCleanup (e : String) (lr fr : Except String Unit) :
    (newControllerModel (Except.ok ()) (Except.error e)).controllerCreated = false ∧
    (newControllerModel (Except.ok ()) (Except.error e)).err
      = some (createFollowerErrLabel ++ e) ∧
    (newControllerModel (Except.ok ()) (Except.error e)).closedBuses
      = [leaderBusName] ∧
    ((newControllerModel lr fr).controllerCreated = false →
      (newControllerModel lr fr).openedBuses = (newControllerModel lr fr).closedBuses) := by
  refine ⟨rfl, rfl, rfl, ?_⟩
  cases lr with
  | error el => intro _; rfl
  | ok u =>
      cases fr with
      | error ef => intro _; rfl
      | ok v =>
          intro h
          simp [newControllerModel] at h

/-- Witness for C10 at a concrete failed follower construction. -/
theorem claim10_witness :
    (newControllerModel (Except.ok ()) (Except.error sampleErr)).openedBuses
      = (newControllerModel (Except.ok ()) (Except.error sampleErr)).closedBuses :=
  (claim10_ctorCleanup sampleErr (Except.ok ()) (Except.error sampleErr)).2.2.2 rfl

end LeRobot
